import Mathlib

/-
Shallow embedding of sakaydb.py (class SakayDB): a flat-file-backed record
store with three tables (drivers.csv, locations.csv, trips.csv).

Modelling conventions:
- Strings are `List Char` (`Str`), so that all string operations are
  structurally recursive and kernel-evaluable.  Python `str.strip`,
  `str.split`, `str.lower`, `str.title` are reimplemented over `Str`
  (ASCII case model, as all data in the claims is ASCII).
- Python floats (trip_distance, fare_amount) are modelled as rationals;
  `np.isclose(a, b)` becomes `|a - b| <= 1e-8 + 1e-5 * |b|`, numpy's
  documented formula with its default tolerances.
- A pandas DataFrame loaded from one of the three csv files is a typed list
  of records (`List DriverRec` etc.); the persisted store is `DBState`,
  with `none` meaning "the csv file does not exist".
- `pd.to_datetime(s, format='%H:%M:%S,%d-%m-%Y')` becomes `parseTimestamp`.
- A raised exception is the `.error` result of `Except PyErr`:
  `.sakayDBError msg` for `raise SakayDBError(msg)` and `.pyExn kind` for
  an uncaught exception escaping from pandas (e.g. the KeyError raised by
  `df.loc[-1, col]` on an empty frame).  Since every `to_csv` write in the
  source happens after all raise points of its operation, an `.error`
  result faithfully implies that no table was written.
-/

abbrev Str := List Char

def sl (s : String) : Str := s.data

/-- Python's default str.strip character class (ASCII whitespace). -/
def isSpaceC (c : Char) : Bool :=
  c == ' ' || c == '\t' || c == '\n' || c == '\r' || c == '\x0b' || c == '\x0c'

/-- Python str.strip(): drop leading and trailing whitespace. -/
def pyStrip (s : Str) : Str :=
  ((s.dropWhile isSpaceC).reverse.dropWhile isSpaceC).reverse

/-- Python str.lower() (ASCII model). -/
def pyLower (s : Str) : Str := s.map Char.toLower

/-- Helper for pyTitle: the Bool records whether the previous character was
alphabetic (a cased character). -/
def pyTitleAux : Bool → Str → Str
  | _, [] => []
  | prevAlpha, c :: cs =>
    if c.isAlpha then
      (if prevAlpha then c.toLower else c.toUpper) :: pyTitleAux true cs
    else c :: pyTitleAux false cs

/-- Python str.title() (ASCII model): uppercase each letter that starts a
run of letters, lowercase the rest. -/
def pyTitle (s : Str) : Str := pyTitleAux false s

/-- Does s start with the character sequence sep? -/
def isSeqAt (sep s : Str) : Bool :=
  match sep, s with
  | [], _ => true
  | _ :: _, [] => false
  | a :: as, b :: bs => a == b && isSeqAt as bs

/-- Fuel-driven worker for pySplit; the fuel (initially the length of the
input) makes the recursion structural.  Each step consumes at least one
character, so the fuel-exhausted equation is unreachable for a non-empty
separator. -/
def splitSepFuel (sep : Str) : Nat → Str → Str → List Str
  | _, [], acc => [acc.reverse]
  | 0, s, acc => [acc.reverse ++ s]
  | fuel + 1, c :: rest, acc =>
    if isSeqAt sep (c :: rest) then
      acc.reverse :: splitSepFuel sep fuel (List.drop sep.length (c :: rest)) []
    else
      splitSepFuel sep fuel rest (c :: acc)

/-- Python s.split(sep) for a non-empty separator: non-overlapping
left-to-right splitting, keeping empty pieces. -/
def pySplit (sep s : Str) : List Str := splitSepFuel sep s.length s []

def splitChar (c : Char) (s : Str) : List Str := pySplit [c] s

def digitsVal (s : Str) : Nat :=
  s.foldl (fun n c => n * 10 + (c.toNat - '0'.toNat)) 0

def allDigits (s : Str) : Bool := !s.isEmpty && s.all Char.isDigit

/-- Parse an unsigned decimal numeral of at most maxLen digits (strptime
accepts 1 or 2 digits for %H/%M/%S/%d/%m and up to 4 for %Y). -/
def parseNum (maxLen : Nat) (s : Str) : Option Nat :=
  if allDigits s && s.length ≤ maxLen then some (digitsVal s) else none

def isLeap (y : Nat) : Bool := (y % 4 == 0 && y % 100 != 0) || y % 400 == 0

def daysInMonth (y m : Nat) : Nat :=
  if m == 2 then (if isLeap y then 29 else 28)
  else if m == 4 || m == 6 || m == 9 || m == 11 then 30
  else 31

structure Timestamp where
  year : Nat
  month : Nat
  day : Nat
  hour : Nat
  minute : Nat
  second : Nat
deriving DecidableEq, Repr

/-- pd.to_datetime(s, format='%H:%M:%S,%d-%m-%Y'): the whole string must
match the fixed format, with in-range field values. -/
def parseTimestamp (s : Str) : Option Timestamp :=
  match splitChar ',' s with
  | [timePart, datePart] =>
    match splitChar ':' timePart, splitChar '-' datePart with
    | [hs, mins, ss], [ds, mos, ys] =>
      match parseNum 2 hs, parseNum 2 mins, parseNum 2 ss,
            parseNum 2 ds, parseNum 2 mos, parseNum 4 ys with
      | some h, some mi, some se, some d, some mo, some y =>
        if h ≤ 23 && mi ≤ 59 && se ≤ 59 && 1 ≤ mo && mo ≤ 12
            && 1 ≤ d && d ≤ daysInMonth y mo then
          some ⟨y, mo, d, h, mi, se⟩
        else none
      | _, _, _, _, _, _ => none
    | _, _ => none
  | _ => none

/-- Injective linearization of a (range-valid) timestamp, used for the
order and equality of instants. -/
def tsKey (t : Timestamp) : Nat :=
  ((((t.year * 13 + t.month) * 32 + t.day) * 24 + t.hour) * 60 + t.minute) * 60 + t.second

/-- A Python scalar value as passed by callers: str, int or float
(floats modelled as rationals). -/
inductive PyVal where
  | str (s : Str)
  | int (n : Int)
  | float (q : ℚ)
deriving DecidableEq, Repr

/-- Python float(s) for a decimal string: optional sign, integer digits
and an optional fractional part.  Exponent and inf/nan literal forms are
not modelled (no claim depends on them). -/
def parsePosFloat (s : Str) : Option ℚ :=
  match splitChar '.' s with
  | [ip] => if allDigits ip then some ((digitsVal ip : ℚ)) else none
  | [ip, fp] =>
    if (allDigits ip || ip.isEmpty) && (allDigits fp || fp.isEmpty)
        && !(ip.isEmpty && fp.isEmpty) then
      some ((digitsVal ip : ℚ) + (digitsVal fp : ℚ) / ((10 : ℚ) ^ fp.length))
    else none
  | _ => none

def parseFloatStr (s : Str) : Option ℚ :=
  match pyStrip s with
  | '-' :: r => (parsePosFloat r).map (fun q => -q)
  | '+' :: r => parsePosFloat r
  | r => parsePosFloat r

def parseIntStr (s : Str) : Option Int :=
  match pyStrip s with
  | '-' :: r => if allDigits r then some (-(digitsVal r : Int)) else none
  | '+' :: r => if allDigits r then some ((digitsVal r : Int)) else none
  | r => if allDigits r then some ((digitsVal r : Int)) else none

/-- Python float(x): coercion of a scalar to a real number. -/
def pyFloat : PyVal → Option ℚ
  | .str s => parseFloatStr s
  | .int n => some ((n : ℚ))
  | .float q => some q

/-- Truncation toward zero, as Python int(float) rounds. -/
def ratTrunc (q : ℚ) : Int := Int.tdiv q.num ((q.den : Int))

/-- Python int(x): coercion of a scalar to an integer. -/
def pyInt : PyVal → Option Int
  | .str s => parseIntStr s
  | .int n => some n
  | .float q => some (ratTrunc q)

/-- One record of drivers.csv.  Field order is the persisted column order:
the source creates the frame as
pd.DataFrame(columns=['driver_id', 'given_name', 'last_name'])
(line 107) and appends rows positionally in that order. -/
structure DriverRec where
  driver_id : Nat
  given_name : Str
  last_name : Str
deriving DecidableEq, Repr

/-- One record of locations.csv (columns ['location_id', 'loc_name']). -/
structure LocRec where
  location_id : Nat
  loc_name : Str
deriving DecidableEq, Repr

/-- One record of trips.csv; field order is the column order of the frame
created at source lines 175-181. -/
structure TripRec where
  trip_id : Nat
  driver_id : Nat
  pickup_datetime : Str
  dropoff_datetime : Str
  passenger_count : Int
  pickup_loc_id : Nat
  dropoff_loc_id : Nat
  trip_distance : ℚ
  fare_amount : ℚ
deriving DecidableEq, Repr

/-- The persisted store: one optional table per csv file; `none` means the
file does not exist in data_dir. -/
structure DBState where
  drivers : Option (List DriverRec)
  locations : Option (List LocRec)
  trips : Option (List TripRec)
deriving DecidableEq, Repr

/-- A raised Python exception: either SakayDBError(msg) or an uncaught
exception of another class (identified by its class name). -/
inductive PyErr where
  | sakayDBError (msg : Option Str)
  | pyExn (kind : Str)
deriving DecidableEq, Repr

def isOkE {ε α : Type} : Except ε α → Bool
  | .ok _ => true
  | .error _ => false

/-- np.isclose(a, b) with the default tolerances rtol=1e-5, atol=1e-8:
|a - b| <= atol + rtol * |b|. -/
def isclose (a b : ℚ) : Bool :=
  decide (|a - b| ≤ (1 : ℚ) / 100000000 + (1 : ℚ) / 100000 * |b|)

def msgInvalid : Str := sl "has invalid or incomplete information"

def msgDup : Str := sl "is already in the database"

def keyErrorStr : Str := sl "KeyError"

/-- The caller-supplied arguments of add_trip.  driver, the two datetimes
and the two location names are strings in every reachable call; the three
numeric fields are arbitrary Python scalars to be coerced. -/
structure AddTripInput where
  driver : Str
  pickup_datetime : Str
  dropoff_datetime : Str
  passenger_count : PyVal
  pickup_loc_name : Str
  dropoff_loc_name : Str
  trip_distance : PyVal
  fare_amount : PyVal
deriving DecidableEq, Repr

/-- The normalized scalar fields produced by add_trip's validation block
(source lines 67-84). -/
structure ValidInput where
  last_name : Str
  given_name : Str
  pickup_str : Str
  dropoff_str : Str
  pickup_loc : Str
  dropoff_loc : Str
  passenger_count : Int
  trip_distance : ℚ
  fare_amount : ℚ
deriving DecidableEq, Repr

/-- add_trip's validation block (source lines 67-84): split the driver
string on ', ' into exactly two parts, strip and parse both timestamps
under the fixed format, coerce passenger_count to int and
trip_distance/fare_amount to float.  Any failure collapses to `none`
(the single uniform SakayDBError). -/
def validateInput (i : AddTripInput) : Option ValidInput :=
  match pySplit (sl ", ") (pyStrip i.driver) with
  | [ln, gn] =>
    match parseTimestamp (pyStrip i.pickup_datetime),
          parseTimestamp (pyStrip i.dropoff_datetime),
          pyInt i.passenger_count,
          pyFloat i.trip_distance,
          pyFloat i.fare_amount with
    | some _, some _, some pc, some td, some fa =>
      some ⟨ln, gn, pyStrip i.pickup_datetime, pyStrip i.dropoff_datetime,
            pyStrip i.pickup_loc_name, pyStrip i.dropoff_loc_name, pc, td, fa⟩
    | _, _, _, _, _ => none
  | _ => none

/-- The case-insensitive driver lookup predicate (source lines 94-97). -/
def driverNameMatches (ln gn : Str) (r : DriverRec) : Bool :=
  pyLower r.last_name == pyLower ln && pyLower r.given_name == pyLower gn

/-- Driver resolution (source lines 91-112).  On a match, the first
matching row's driver_id; on no match, last row's driver_id + 1 and a
title-cased append; `df.loc[shape-1, 'driver_id']` on an empty frame
raises KeyError; on a missing file, a fresh frame with driver_id 1. -/
def resolveDriver (drivers : Option (List DriverRec)) (ln gn : Str) :
    Except PyErr (List DriverRec × Nat) :=
  match drivers with
  | some df =>
    match df.find? (driverNameMatches ln gn) with
    | some r => .ok (df, r.driver_id)
    | none =>
      match df.getLast? with
      | some lastRow =>
        .ok (df ++ [⟨lastRow.driver_id + 1, pyTitle gn, pyTitle ln⟩],
             lastRow.driver_id + 1)
      | none => .error (.pyExn keyErrorStr)
  | none => .ok ([⟨1, pyTitle gn, pyTitle ln⟩], 1)

/-- The case-insensitive location lookup predicate (source lines 117-118). -/
def locNameMatches (name : Str) (r : LocRec) : Bool :=
  pyLower r.loc_name == pyLower name

/-- Location resolution (source lines 114-129 for pickup, 131-146 for
dropoff; both blocks run the same logic against the persisted file). -/
def resolveLocation (locs : Option (List LocRec)) (name : Str) :
    Except PyErr (List LocRec × Nat) :=
  match locs with
  | some df =>
    match df.find? (locNameMatches name) with
    | some r => .ok (df, r.location_id)
    | none =>
      match df.getLast? with
      | some lastRow =>
        .ok (df ++ [⟨lastRow.location_id + 1, pyTitle name⟩],
             lastRow.location_id + 1)
      | none => .error (.pyExn keyErrorStr)
  | none => .ok ([⟨1, pyTitle name⟩], 1)

/-- The duplicate-trip predicate (source lines 151-163): exact match on the
resolved ids, the stripped timestamp strings and passenger_count, and
np.isclose on trip_distance and fare_amount. -/
def tripMatches (v : ValidInput) (did pid doid : Nat) (r : TripRec) : Bool :=
  r.driver_id == did && r.pickup_datetime == v.pickup_str
    && r.dropoff_datetime == v.dropoff_str
    && r.passenger_count == v.passenger_count
    && r.pickup_loc_id == pid && r.dropoff_loc_id == doid
    && isclose r.trip_distance v.trip_distance
    && isclose r.fare_amount v.fare_amount

/-- SakayDB.add_trip (source lines 18-193).  Note: the dropoff block
re-reads locations.csv from disk (line 132-133), so the frame extended by
the pickup block is discarded and only the dropoff block's frame is
persisted (line 191); the pickup block's result contributes only the
pickup id.  All three to_csv writes happen together after every raise
point, so an `.error` result means no table was written. -/
def add_trip (st : DBState) (i : AddTripInput) : Except PyErr (DBState × Nat) :=
  match validateInput i with
  | none => .error (.sakayDBError (some msgInvalid))
  | some v =>
    match resolveDriver st.drivers v.last_name v.given_name with
    | .error e => .error e
    | .ok (df_drivers, driver_id) =>
      match resolveLocation st.locations v.pickup_loc with
      | .error e => .error e
      | .ok (_df_locs_pickup, pickup_id) =>
        match resolveLocation st.locations v.dropoff_loc with
        | .error e => .error e
        | .ok (df_locs, dropoff_id) =>
          match st.trips with
          | some df_trips =>
            if (df_trips.filter (tripMatches v driver_id pickup_id dropoff_id)).length == 0 then
              match df_trips.getLast? with
              | some lastRow =>
                .ok (⟨some df_drivers, some df_locs,
                      some (df_trips ++ [⟨lastRow.trip_id + 1, driver_id,
                        v.pickup_str, v.dropoff_str, v.passenger_count,
                        pickup_id, dropoff_id, v.trip_distance, v.fare_amount⟩])⟩,
                     lastRow.trip_id + 1)
              | none => .error (.pyExn keyErrorStr)
            else .error (.sakayDBError (some msgDup))
          | none =>
            .ok (⟨some df_drivers, some df_locs,
                  some [⟨1, driver_id, v.pickup_str, v.dropoff_str,
                    v.passenger_count, pickup_id, dropoff_id,
                    v.trip_distance, v.fare_amount⟩]⟩, 1)

/-- SakayDB.delete_trip (source lines 260-294): raises SakayDBError when
trips.csv is absent or no row carries the id; otherwise writes back only
trips.csv, keeping exactly the rows whose trip_id differs, in order. -/
def delete_trip (st : DBState) (trip_id : Nat) : Except PyErr (DBState × Nat) :=
  match st.trips with
  | some df =>
    if (df.filter (fun t => t.trip_id == trip_id)).length == 0 then
      .error (.sakayDBError none)
    else
      .ok ({ st with trips := some (df.filter (fun t => t.trip_id != trip_id)) }, trip_id)
  | none => .error (.sakayDBError none)

/-- Generic effectful map used to model the column-wide
pd.to_datetime calls: fails if any element fails. -/
def traverseOpt {α β : Type} (f : α → Option β) : List α → Option (List β)
  | [] => some []
  | a :: l =>
    match f a, traverseOpt f l with
    | some b, some l' => some (b :: l')
    | _, _ => none

/-- A stable insertion step for sortBy. -/
def insertBy {α : Type} (le : α → α → Bool) (x : α) : List α → List α
  | [] => [x]
  | y :: ys => if le x y then x :: y :: ys else y :: insertBy le x ys

/-- Sorting used to model df.sort_values.  Any correct comparison sort has
the same multiset of rows; the claims only use the result up to
permutation, so the difference from pandas' quicksort is invisible. -/
def sortBy {α : Type} (le : α → α → Bool) : List α → List α
  | [] => []
  | x :: xs => insertBy le x (sortBy le xs)

/-- A search criterion value: a scalar for exact match, or a tuple whose
entries may be Python None (open range ends). -/
inductive CritVal where
  | scalar (v : PyVal)
  | range (vs : List (Option PyVal))
deriving DecidableEq, Repr

def validKeys : List Str :=
  [sl "driver_id", sl "pickup_datetime", sl "dropoff_datetime",
   sl "passenger_count", sl "trip_distance", sl "fare_amount"]

def dateKeys : List Str := [sl "pickup_datetime", sl "dropoff_datetime"]

def floatKeys : List Str :=
  [sl "driver_id", sl "passenger_count", sl "trip_distance", sl "fare_amount"]

/-- A trips row augmented with the two parsed datetime columns that
search_trips inserts before filtering (source lines 341-352). -/
abbrev AugRow := TripRec × Timestamp × Timestamp

/-- Augment one row, as the column-wide pd.to_datetime at source lines
347-352; a malformed stored string raises (uncaught, outside the except
of the filter loop). -/
def parseAugRow (r : TripRec) : Option AugRow :=
  match parseTimestamp r.pickup_datetime, parseTimestamp r.dropoff_datetime with
  | some p, some d => some (r, p, d)
  | _, _ => none

/-- df_trips[key] for the numeric keys (the driver_id and passenger_count
columns compare as numbers against the float() of the criterion). -/
def getFloatCol (k : Str) (a : AugRow) : ℚ :=
  if k == sl "driver_id" then ((a.1.driver_id : ℚ))
  else if k == sl "passenger_count" then ((a.1.passenger_count : ℚ))
  else if k == sl "trip_distance" then a.1.trip_distance
  else a.1.fare_amount

/-- df_trips[key] for the two datetime keys (the parsed columns). -/
def getDateCol (k : Str) (a : AugRow) : Timestamp :=
  if k == sl "pickup_datetime" then a.2.1 else a.2.2

/-- Convert one end of a numeric range: None stays open, anything else
must coerce with float(). -/
def convOptF : Option PyVal → Option (Option ℚ)
  | none => some none
  | some v => (pyFloat v).map some

/-- Convert one end of a datetime range: None stays open, a string must
parse under the fixed format, any other scalar raises in pd.to_datetime. -/
def convOptD : Option PyVal → Option (Option Timestamp)
  | none => some none
  | some (.str s) => (parseTimestamp s).map some
  | some _ => none

/-- The range filter of source lines 379-385 for a numeric key: one-sided
when one end is None, inclusive on both ends when both are present, no
filtering when both are None. -/
def rangeFilterF (k : Str) (lo hi : Option ℚ) (df : List AugRow) : List AugRow :=
  match lo, hi with
  | some l, none => df.filter (fun a => decide (l ≤ getFloatCol k a))
  | none, some h => df.filter (fun a => decide (getFloatCol k a ≤ h))
  | some l, some h =>
    df.filter (fun a => decide (l ≤ getFloatCol k a) && decide (getFloatCol k a ≤ h))
  | none, none => df

/-- The range filter for a datetime key (instants compared via tsKey). -/
def rangeFilterD (k : Str) (lo hi : Option Timestamp) (df : List AugRow) : List AugRow :=
  match lo, hi with
  | some l, none => df.filter (fun a => Nat.ble (tsKey l) (tsKey (getDateCol k a)))
  | none, some h => df.filter (fun a => Nat.ble (tsKey (getDateCol k a)) (tsKey h))
  | some l, some h =>
    df.filter (fun a =>
      Nat.ble (tsKey l) (tsKey (getDateCol k a)) && Nat.ble (tsKey (getDateCol k a)) (tsKey h))
  | none, none => df

/-- One iteration of the filter loop of search_trips (source lines
355-397).  Every exception inside the loop body - the explicit raise for a
wrong-length tuple as well as any coercion failure - is caught by the
blanket except and re-raised as a bare SakayDBError. -/
def critStep (df : List AugRow) (kv : Str × CritVal) : Except PyErr (List AugRow) :=
  match kv.2 with
  | .range vs =>
    if vs.length != 2 then .error (.sakayDBError none)
    else
      match vs with
      | [lo, hi] =>
        if floatKeys.contains kv.1 then
          match convOptF lo, convOptF hi with
          | some lo', some hi' => .ok (rangeFilterF kv.1 lo' hi' df)
          | _, _ => .error (.sakayDBError none)
        else
          match convOptD lo, convOptD hi with
          | some lo', some hi' => .ok (rangeFilterD kv.1 lo' hi' df)
          | _, _ => .error (.sakayDBError none)
      | _ => .error (.sakayDBError none)
  | .scalar v =>
    if floatKeys.contains kv.1 then
      match pyFloat v with
      | some q => .ok (df.filter (fun a => getFloatCol kv.1 a == q))
      | none => .error (.sakayDBError none)
    else
      match v with
      | .str s =>
        match parseTimestamp s with
        | some t => .ok (df.filter (fun a => tsKey (getDateCol kv.1 a) == tsKey t))
        | none => .error (.sakayDBError none)
      | _ => .error (.sakayDBError none)

/-- The inclusive bound predicate behind rangeFilterF. -/
def rangePredF (k : Str) (lo hi : Option ℚ) (a : AugRow) : Bool :=
  match lo, hi with
  | some l, none => decide (l ≤ getFloatCol k a)
  | none, some h => decide (getFloatCol k a ≤ h)
  | some l, some h => decide (l ≤ getFloatCol k a) && decide (getFloatCol k a ≤ h)
  | none, none => true

/-- The inclusive bound predicate behind rangeFilterD. -/
def rangePredD (k : Str) (lo hi : Option Timestamp) (a : AugRow) : Bool :=
  match lo, hi with
  | some l, none => Nat.ble (tsKey l) (tsKey (getDateCol k a))
  | none, some h => Nat.ble (tsKey (getDateCol k a)) (tsKey h)
  | some l, some h =>
    Nat.ble (tsKey l) (tsKey (getDateCol k a)) && Nat.ble (tsKey (getDateCol k a)) (tsKey h)
  | none, none => true

/-- The criterion satisfaction predicate: what it means for one augmented
row to pass one criterion - exact equality for scalars, inclusive bound
checks for well-formed two-element ranges (false when the criterion value
itself cannot be converted, which in the engine is an error, not a
filter). -/
def critMatch (kv : Str × CritVal) (a : AugRow) : Bool :=
  match kv.2 with
  | .range vs =>
    match vs with
    | [lo, hi] =>
      if floatKeys.contains kv.1 then
        match convOptF lo, convOptF hi with
        | some lo', some hi' => rangePredF kv.1 lo' hi' a
        | _, _ => false
      else
        match convOptD lo, convOptD hi with
        | some lo', some hi' => rangePredD kv.1 lo' hi' a
        | _, _ => false
    | _ => false
  | .scalar v =>
    if floatKeys.contains kv.1 then
      match pyFloat v with
      | some q => getFloatCol kv.1 a == q
      | none => false
    else
      match v with
      | .str s =>
        match parseTimestamp s with
        | some t => tsKey (getDateCol kv.1 a) == tsKey t
        | none => false
      | _ => false

/-- The filter loop over all supplied criteria, in order. -/
def applyCrits : List (Str × CritVal) → List AugRow → Except PyErr (List AugRow)
  | [], df => .ok df
  | c :: cs, df =>
    match critStep df c with
    | .ok df' => applyCrits cs df'
    | .error e => .error e

/-- Three-way comparison of two rows under one sort key. -/
def keyCmp (k : Str) (a b : AugRow) : Ordering :=
  if dateKeys.contains k then
    compare (tsKey (getDateCol k a)) (tsKey (getDateCol k b))
  else
    (if getFloatCol k a < getFloatCol k b then Ordering.lt
     else if getFloatCol k b < getFloatCol k a then Ordering.gt
     else Ordering.eq)

/-- Lexicographic row order for df.sort_values(list(keys)) (source line
400), over the criteria keys in the order they were supplied. -/
def rowLe (keys : List Str) (a b : AugRow) : Bool :=
  match keys with
  | [] => true
  | k :: ks =>
    match keyCmp k a b with
    | Ordering.lt => true
    | Ordering.gt => false
    | Ordering.eq => rowLe ks a b

/-- SakayDB.search_trips (source lines 296-405).  Criteria are the kwargs
as an ordered association list (Python kwargs preserve call order and have
distinct keys).  Returns the filtered rows - with their original string
datetime columns, as the engine restores them before returning - or the
empty list when trips.csv does not exist. -/
def search_trips (st : DBState) (criteria : List (Str × CritVal)) :
    Except PyErr (List TripRec) :=
  if criteria.isEmpty || criteria.any (fun kv => !(validKeys.contains kv.1)) then
    .error (.sakayDBError none)
  else
    match st.trips with
    | none => .ok []
    | some df =>
      match traverseOpt parseAugRow df with
      | none => .error (.pyExn (sl "ValueError"))
      | some aug =>
        match applyCrits criteria aug with
        | .error e => .error e
        | .ok aug' =>
          .ok ((sortBy (rowLe (criteria.map Prod.fst)) aug').map Prod.fst)

/-- pandas how='left' merge semantics for the match list of one left row:
no match yields a single all-null partner, k matches yield k rows. -/
def leftMatches {β : Type} (ms : List β) : List (Option β) :=
  if ms.isEmpty then [none] else ms.map some

/-- One row of the denormalized view produced by export_data, with its
fixed column set (source lines 471-475); names are None when a referenced
driver/location id is dangling (left-join leniency). -/
structure ExportRow where
  driver_lastname : Option Str
  driver_givenname : Option Str
  pickup_datetime : Str
  dropoff_datetime : Str
  passenger_count : Int
  pickup_loc_name : Option Str
  dropoff_loc_name : Option Str
  trip_distance : ℚ
  fare_amount : ℚ
deriving DecidableEq, Repr

/-- SakayDB.export_data (source lines 407-494): a left join of trips to
drivers on driver_id and two left joins to locations (pickup, dropoff),
sorted by trip_id; the empty view when any of the three files is absent. -/
def export_data (st : DBState) : List ExportRow :=
  match st.trips, st.drivers, st.locations with
  | some dft, some dfd, some dfl =>
    let merged := dft.flatMap (fun t =>
      (leftMatches (dfd.filter (fun d => d.driver_id == t.driver_id))).flatMap (fun od =>
        (leftMatches (dfl.filter (fun l => l.location_id == t.pickup_loc_id))).flatMap (fun opl =>
          (leftMatches (dfl.filter (fun l => l.location_id == t.dropoff_loc_id))).map (fun odl =>
            (t.trip_id,
             (⟨od.map (fun d => d.last_name), od.map (fun d => d.given_name),
               t.pickup_datetime, t.dropoff_datetime, t.passenger_count,
               opl.map (fun l => l.loc_name), odl.map (fun l => l.loc_name),
               t.trip_distance, t.fare_amount⟩ : ExportRow))))))
    (sortBy (fun a b => Nat.ble a.1 b.1) merged).map Prod.snd
  | _, _, _ => []

abbrev DateD := Nat × Nat × Nat

def dateOf (t : Timestamp) : DateD := (t.year, t.month, t.day)

def sakamotoTable : List Nat := [0, 3, 2, 5, 0, 3, 5, 1, 4, 6, 2, 4]

/-- Day of week (0 = Sunday) by Sakamoto's method; the y/100 term is
subtracted as an addition of its negation mod 7 to stay in Nat. -/
def dayOfWeek (y m d : Nat) : Nat :=
  let y' := if m < 3 then y - 1 else y
  (y' + y' / 4 + y' / 400 + 6 * (y' / 100) + sakamotoTable.getD (m - 1) 0 + d) % 7

def dayNamesList : List Str :=
  [sl "Sunday", sl "Monday", sl "Tuesday", sl "Wednesday",
   sl "Thursday", sl "Friday", sl "Saturday"]

def dayNameOf (t : Timestamp) : Str :=
  dayNamesList.getD (dayOfWeek t.year t.month t.day) []

/-- Distinct values of a list, in order of first occurrence (the key set
of a pandas groupby, up to its output ordering, which no claim uses). -/
def dedupKeys {κ : Type} [BEq κ] (l : List κ) : List κ :=
  l.foldl (fun acc k => if acc.contains k then acc else acc ++ [k]) []

def meanQ (l : List ℚ) : ℚ := (l.foldl (· + ·) 0) / ((l.length : ℚ))

/-- The inner stat_trip of generate_statistics (source lines 527-550):
count trips per calendar day of pickup, then average those daily counts
by day-of-week name. -/
def stat_trip (st : DBState) : Except PyErr (List (Str × ℚ)) :=
  match st.trips with
  | none => .ok []
  | some df =>
    match traverseOpt (fun r => parseTimestamp r.pickup_datetime) df with
    | none => .error (.pyExn (sl "ValueError"))
    | some ts =>
      let pairs := ts.map (fun t => (dayNameOf t, dateOf t))
      let counts := (dedupKeys pairs).map
        (fun k => (k, (((pairs.filter (fun p => p == k)).length : ℚ))))
      let days := dedupKeys (counts.map (fun c => c.1.1))
      .ok (days.map (fun d =>
        (d, meanQ ((counts.filter (fun c => c.1.1 == d)).map (fun c => c.2)))))

/-- The inner stat_passenger (source lines 552-579): the same day-bucketed
counts, additionally grouped by passenger_count. -/
def stat_passenger (st : DBState) : Except PyErr (List (Int × List (Str × ℚ))) :=
  match st.trips with
  | none => .ok []
  | some df =>
    match traverseOpt (fun r => parseTimestamp r.pickup_datetime) df with
    | none => .error (.pyExn (sl "ValueError"))
    | some ts =>
      let triples := (df.zip ts).map
        (fun rt => (rt.1.passenger_count, dayNameOf rt.2, dateOf rt.2))
      let counts := (dedupKeys triples).map
        (fun k => (k, (((triples.filter (fun p => p == k)).length : ℚ))))
      let pcDays := dedupKeys (counts.map (fun c => (c.1.1, c.1.2.1)))
      let means := pcDays.map (fun pd =>
        (pd, meanQ ((counts.filter (fun c => (c.1.1, c.1.2.1) == pd)).map (fun c => c.2))))
      let pcs := dedupKeys (means.map (fun m => m.1.1))
      .ok (pcs.map (fun pc =>
        (pc, (means.filter (fun m => m.1.1 == pc)).map (fun m => (m.1.2, m.2)))))

/-- The inner stat_driver (source lines 581-614): joins driver identity in
as a "Last, Given" key; rows whose driver id is dangling get a null name
and are dropped by the groupby, as pandas drops null group keys. -/
def stat_driver (st : DBState) : Except PyErr (List (Str × List (Str × ℚ))) :=
  match st.trips, st.drivers with
  | some df, some dfd =>
    match traverseOpt (fun r => parseTimestamp r.pickup_datetime) df with
    | none => .error (.pyExn (sl "ValueError"))
    | some ts =>
      let merged := (df.zip ts).flatMap (fun rt =>
        (leftMatches (dfd.filter (fun d => d.driver_id == rt.1.driver_id))).map
          (fun od => (od.map (fun d => d.last_name ++ sl ", " ++ d.given_name), rt.2)))
      let triples := merged.filterMap (fun nt =>
        match nt.1 with
        | some name => some (name, dayNameOf nt.2, dateOf nt.2)
        | none => none)
      let counts := (dedupKeys triples).map
        (fun k => (k, (((triples.filter (fun p => p == k)).length : ℚ))))
      let nameDays := dedupKeys (counts.map (fun c => (c.1.1, c.1.2.1)))
      let means := nameDays.map (fun nd =>
        (nd, meanQ ((counts.filter (fun c => (c.1.1, c.1.2.1) == nd)).map (fun c => c.2))))
      let names := dedupKeys (means.map (fun m => m.1.1))
      .ok (names.map (fun n =>
        (n, (means.filter (fun m => m.1.1 == n)).map (fun m => (m.1.2, m.2)))))
  | _, _ => .ok []

structure AllStats where
  trip : List (Str × ℚ)
  passenger : List (Int × List (Str × ℚ))
  driver : List (Str × List (Str × ℚ))
deriving DecidableEq, Repr

inductive StatsOut where
  | trip (m : List (Str × ℚ))
  | passenger (m : List (Int × List (Str × ℚ)))
  | driver (m : List (Str × List (Str × ℚ)))
  | all (a : AllStats)
deriving DecidableEq, Repr

/-- SakayDB.generate_statistics (source lines 496-626): dispatch on the
case-sensitive kind; an unrecognized kind raises a bare SakayDBError. -/
def generate_statistics (st : DBState) (stat : Str) : Except PyErr StatsOut :=
  if stat == sl "trip" then
    match stat_trip st with
    | .ok m => .ok (.trip m)
    | .error e => .error e
  else if stat == sl "passenger" then
    match stat_passenger st with
    | .ok m => .ok (.passenger m)
    | .error e => .error e
  else if stat == sl "driver" then
    match stat_driver st with
    | .ok m => .ok (.driver m)
    | .error e => .error e
  else if stat == sl "all" then
    match stat_trip st, stat_passenger st, stat_driver st with
    | .ok a, .ok b, .ok c => .ok (.all ⟨a, b, c⟩)
    | .error e, _, _ => .error e
    | _, .error e, _ => .error e
    | _, _, .error e => .error e
  else .error (.sakayDBError none)

/-- The date_range argument of generate_odmatrix: Python None, a tuple
whose entries are None or strings, or a value of any other type. -/
inductive DateRangeArg where
  | noval
  | tup (vs : List (Option Str))
  | other
deriving DecidableEq, Repr

/-- One row of the odmatrix working frame after the column selection at
source lines 789-790. -/
structure OdSelRow where
  pickup_datetime : Str
  pickup_loc_name : Option Str
  dropoff_loc_name : Option Str
deriving DecidableEq, Repr

/-- The two left joins of generate_odmatrix (source lines 782-790). -/
def odMergedRows (dft : List TripRec) (dfl : List LocRec) : List OdSelRow :=
  dft.flatMap (fun t =>
    (leftMatches (dfl.filter (fun l => l.location_id == t.pickup_loc_id))).flatMap (fun opl =>
      (leftMatches (dfl.filter (fun l => l.location_id == t.dropoff_loc_id))).map (fun odl =>
        ⟨t.pickup_datetime, opl.map (fun l => l.loc_name), odl.map (fun l => l.loc_name)⟩)))

abbrev OdRow := Timestamp × Option Str × Option Str

/-- The column-wide pd.to_datetime of generate_odmatrix (lines 791-793). -/
def parseOdRow (r : OdSelRow) : Option OdRow :=
  (parseTimestamp r.pickup_datetime).map
    (fun t => (t, r.pickup_loc_name, r.dropoff_loc_name))

def tsRowLe (a b : OdRow) : Bool := Nat.ble (tsKey a.1) (tsKey b.1)

/-- Lexicographic code-point order on strings (pandas sorts the crosstab
labels this way). -/
def strLe : Str → Str → Bool
  | [], _ => true
  | _ :: _, [] => false
  | a :: as, b :: bs =>
    if a.toNat < b.toNat then true
    else if b.toNat < a.toNat then false
    else strLe as bs

/-- The date_range handling of generate_odmatrix (source lines 796-826):
a non-tuple non-None value raises; a tuple of length other than two
raises; otherwise the rows are restricted to pickups inside the inclusive
(possibly one-sided) range and sorted by pickup datetime, with any parse
failure of a bound collapsing to a bare SakayDBError. -/
def odRangeFilter (dr : DateRangeArg) (rows : List OdRow) : Except PyErr (List OdRow) :=
  match dr with
  | .noval => .ok rows
  | .other => .error (.sakayDBError none)
  | .tup vs =>
    if vs.length != 2 then .error (.sakayDBError none)
    else
      match vs with
      | [lo, hi] =>
        match lo, hi with
        | some s, none =>
          match parseTimestamp s with
          | some t => .ok (sortBy tsRowLe (rows.filter (fun r => Nat.ble (tsKey t) (tsKey r.1))))
          | none => .error (.sakayDBError none)
        | none, some s =>
          match parseTimestamp s with
          | some t => .ok (sortBy tsRowLe (rows.filter (fun r => Nat.ble (tsKey r.1) (tsKey t))))
          | none => .error (.sakayDBError none)
        | some s1, some s2 =>
          match parseTimestamp s1, parseTimestamp s2 with
          | some t1, some t2 =>
            .ok (sortBy tsRowLe (rows.filter
              (fun r => Nat.ble (tsKey t1) (tsKey r.1) && Nat.ble (tsKey r.1) (tsKey t2))))
          | _, _ => .error (.sakayDBError none)
        | none, none => .ok (sortBy tsRowLe rows)
      | _ => .error (.sakayDBError none)

/-- SakayDB.generate_odmatrix (source lines 747-843): the mean daily trip
count per (dropoff, pickup) location-name pair - total matching trips
divided by the number of distinct pickup calendar days for that pair,
zero-filled where a pair has no trips; the empty frame when trips.csv or
locations.csv is absent (returned before the date_range is examined). -/
def generate_odmatrix (st : DBState) (date_range : DateRangeArg) :
    Except PyErr (List (Str × List (Str × ℚ))) :=
  match st.trips, st.locations with
  | some dft, some dfl =>
    (match traverseOpt parseOdRow (odMergedRows dft dfl) with
     | none => .error (.pyExn (sl "ValueError"))
     | some rows =>
       match odRangeFilter date_range rows with
       | .error e => .error e
       | .ok rows' =>
         let pairs := rows'.filterMap (fun r =>
           match r.2.1, r.2.2 with
           | some p, some d => some (p, d, dateOf r.1)
           | _, _ => none)
         let pickups := sortBy strLe (dedupKeys (pairs.map (fun x => x.1)))
         let dropoffs := sortBy strLe (dedupKeys (pairs.map (fun x => x.2.1)))
         .ok (dropoffs.map (fun d =>
           (d, pickups.map (fun p =>
             let sub := pairs.filter (fun x => x.1 == p && x.2.1 == d)
             let entry : ℚ :=
               if sub.isEmpty then 0
               else (sub.length : ℚ) / (((dedupKeys (sub.map (fun x => x.2.2))).length : ℚ))
             (p, entry))))))
  | _, _ => .ok []

/-- A cell of a persisted csv table (the rendering of values to text is
not modelled; only the column layout matters to the claims). -/
inductive Cell where
  | nat (n : Nat)
  | int (n : Int)
  | rat (q : ℚ)
  | str (s : Str)
deriving DecidableEq, Repr

def driversHeader : List Str := [sl "driver_id", sl "given_name", sl "last_name"]

def locationsHeader : List Str := [sl "location_id", sl "loc_name"]

def tripsHeader : List Str :=
  [sl "trip_id", sl "driver_id", sl "pickup_datetime", sl "dropoff_datetime",
   sl "passenger_count", sl "pickup_loc_id", sl "dropoff_loc_id",
   sl "trip_distance", sl "fare_amount"]

/-- df_drivers.to_csv(driver_dir, index=False) (source line 190): header
and cell rows in the frame's column order (['driver_id', 'given_name',
'last_name'], source line 107, with rows appended positionally). -/
def persistDrivers (df : List DriverRec) : List Str × List (List Cell) :=
  (driversHeader,
   df.map (fun r => [Cell.nat r.driver_id, Cell.str r.given_name, Cell.str r.last_name]))

/-- df_locs.to_csv(loc_dir, index=False) (source line 191). -/
def persistLocations (df : List LocRec) : List Str × List (List Cell) :=
  (locationsHeader, df.map (fun r => [Cell.nat r.location_id, Cell.str r.loc_name]))

/-- df_trips.to_csv(trip_dir, index=False) (source line 192). -/
def persistTrips (df : List TripRec) : List Str × List (List Cell) :=
  (tripsHeader,
   df.map (fun r =>
     [Cell.nat r.trip_id, Cell.nat r.driver_id, Cell.str r.pickup_datetime,
      Cell.str r.dropoff_datetime, Cell.int r.passenger_count,
      Cell.nat r.pickup_loc_id, Cell.nat r.dropoff_loc_id,
      Cell.rat r.trip_distance, Cell.rat r.fare_amount]))

def dt0800 : Str := sl "08:00:00,01-01-2023"

def dt0900 : Str := sl "09:00:00,01-01-2023"

def dt1000 : Str := sl "10:00:00,02-01-2023"

def dt1100 : Str := sl "11:00:00,02-01-2023"

def c1_input : AddTripInput :=
  ⟨sl "Cruz, Juan", dt0800, dt0900, PyVal.int 1, sl "A", sl "B",
   PyVal.float 100, PyVal.float 50⟩

def c5_input1 : AddTripInput :=
  ⟨sl "Cruz, Juan", dt0800, dt0900, PyVal.int 1, sl "Alpha", sl "Beta",
   PyVal.float 100, PyVal.float 50⟩

def c5_input2 : AddTripInput :=
  ⟨sl "cruz, JUAN", dt1000, dt1100, PyVal.int 1, sl "alpha", sl "Gamma",
   PyVal.float 100, PyVal.float 50⟩

def c5_state1 : DBState :=
  ⟨some [⟨1, sl "Juan", sl "Cruz"⟩], some [⟨1, sl "Beta"⟩],
   some [⟨1, 1, dt0800, dt0900, 1, 1, 1, 100, 50⟩]⟩

def c5_state2 : DBState :=
  ⟨some [⟨1, sl "Juan", sl "Cruz"⟩], some [⟨1, sl "Beta"⟩, ⟨2, sl "Gamma"⟩],
   some [⟨1, 1, dt0800, dt0900, 1, 1, 1, 100, 50⟩,
         ⟨2, 1, dt1000, dt1100, 1, 2, 2, 100, 50⟩]⟩

def c4_input : AddTripInput :=
  ⟨sl "Juan", dt0800, dt0900, PyVal.int 1, sl "A", sl "B",
   PyVal.float 100, PyVal.float 50⟩

def c2_trip : TripRec := ⟨1, 1, dt0800, dt0900, 2, 1, 1, 100, 50⟩

def c2_state : DBState :=
  ⟨some [⟨1, sl "Juan", sl "Cruz"⟩], some [⟨1, sl "A"⟩], some [c2_trip]⟩

def c2_input : AddTripInput :=
  ⟨sl "Cruz, Juan", dt0800, dt0900, PyVal.int 2, sl "A", sl "A",
   PyVal.float 100, PyVal.float (50 + 1 / 1000000000)⟩

def c2_valid : ValidInput :=
  ⟨sl "Cruz", sl "Juan", dt0800, dt0900, sl "A", sl "A", 2, 100,
   50 + 1 / 1000000000⟩

def c3_state : DBState :=
  ⟨some [⟨1, sl "Juan", sl "Cruz"⟩], some [⟨1, sl "A"⟩], some []⟩

def c3_input : AddTripInput :=
  ⟨sl "Cruz, Juan", dt0800, dt0900, PyVal.int 1, sl "A", sl "A",
   PyVal.float 1, PyVal.float 1⟩

def c3w_rows : List TripRec :=
  [⟨1, 1, dt0800, dt0900, 1, 1, 1, 100, 50⟩,
   ⟨2, 1, dt0900, dt1000, 1, 1, 1, 100, 60⟩,
   ⟨3, 1, dt1000, dt1100, 1, 1, 1, 100, 70⟩]

def c3w_state : DBState :=
  ⟨some [⟨1, sl "Juan", sl "Cruz"⟩], some [⟨1, sl "A"⟩], some c3w_rows⟩

def c3w_state1 : DBState :=
  ⟨some [⟨1, sl "Juan", sl "Cruz"⟩], some [⟨1, sl "A"⟩],
   some [⟨1, 1, dt0800, dt0900, 1, 1, 1, 100, 50⟩,
         ⟨3, 1, dt1000, dt1100, 1, 1, 1, 100, 70⟩]⟩

def c3w_input : AddTripInput :=
  ⟨sl "Cruz, Juan", sl "12:00:00,03-01-2023", sl "13:00:00,03-01-2023",
   PyVal.int 1, sl "A", sl "A", PyVal.float 100, PyVal.float 80⟩

def c3w_state2 : DBState :=
  ⟨some [⟨1, sl "Juan", sl "Cruz"⟩], some [⟨1, sl "A"⟩],
   some [⟨1, 1, dt0800, dt0900, 1, 1, 1, 100, 50⟩,
         ⟨3, 1, dt1000, dt1100, 1, 1, 1, 100, 70⟩,
         ⟨4, 1, sl "12:00:00,03-01-2023", sl "13:00:00,03-01-2023", 1, 1, 1, 100, 80⟩]⟩

def c7_row1 : TripRec := ⟨1, 1, dt0800, dt0900, 1, 1, 1, 100, 50⟩

def c7_row2 : TripRec := ⟨2, 1, dt0800, dt0900, 1, 1, 1, 100, 75⟩

def c7_row3 : TripRec := ⟨3, 1, dt0800, dt0900, 1, 1, 1, 100, 100⟩

def c7_state : DBState := ⟨none, none, some [c7_row1, c7_row2, c7_row3]⟩

def c7_crit : List (Str × CritVal) :=
  [(sl "fare_amount", CritVal.range [some (PyVal.float 50), some (PyVal.float 75)])]

def c7_result : List TripRec := [c7_row1, c7_row2]

def c7_ts1 : Timestamp := ⟨2023, 1, 1, 8, 0, 0⟩

def c7_ts2 : Timestamp := ⟨2023, 1, 1, 9, 0, 0⟩

def c7_aug : List AugRow :=
  [(c7_row1, c7_ts1, c7_ts2), (c7_row2, c7_ts1, c7_ts2), (c7_row3, c7_ts1, c7_ts2)]

def c8_trip : TripRec := ⟨1, 1, dt0800, dt0900, 1, 1, 1, 100, 50⟩

def c8_state : DBState := ⟨none, some [⟨1, sl "A"⟩], some [c8_trip]⟩

def c9_input : AddTripInput :=
  ⟨sl "Cruz, Juan", dt0800, dt0900, PyVal.int 1, sl "A", sl "A",
   PyVal.float 1, PyVal.float 1⟩

def c10_rows : List TripRec :=
  [⟨1, 1, dt0800, dt0900, 1, 1, 1, 100, 50⟩,
   ⟨2, 1, dt0900, dt1000, 1, 1, 1, 100, 60⟩,
   ⟨3, 1, dt1000, dt1100, 1, 1, 1, 100, 70⟩]

def c10_state : DBState :=
  ⟨some [⟨1, sl "Juan", sl "Cruz"⟩], some [⟨1, sl "A"⟩], some c10_rows⟩

def c10_state1 : DBState :=
  ⟨some [⟨1, sl "Juan", sl "Cruz"⟩], some [⟨1, sl "A"⟩],
   some [⟨1, 1, dt0800, dt0900, 1, 1, 1, 100, 50⟩,
         ⟨3, 1, dt1000, dt1100, 1, 1, 1, 100, 70⟩]⟩

theorem insertBy_perm {α : Type} (le : α → α → Bool) (x : α) (l : List α) :
    (insertBy le x l).Perm (x :: l) := by
  induction l with
  | nil => exact List.Perm.refl _
  | cons y ys ih =>
    simp only [insertBy]
    split
    · exact List.Perm.refl _
    · exact (ih.cons y).trans (List.Perm.swap x y ys)

theorem sortBy_perm {α : Type} (le : α → α → Bool) (l : List α) :
    (sortBy le l).Perm l := by
  induction l with
  | nil => exact List.Perm.refl _
  | cons x xs ih => exact (insertBy_perm le x (sortBy le xs)).trans (ih.cons x)

theorem mem_sortBy {α : Type} {le : α → α → Bool} {a : α} {l : List α} :
    a ∈ sortBy le l ↔ a ∈ l :=
  (sortBy_perm le l).mem_iff

theorem traverseOpt_mem {α β : Type} {f : α → Option β} {l : List α} {l' : List β}
    (h : traverseOpt f l = some l') (b : β) :
    b ∈ l' ↔ ∃ a ∈ l, f a = some b := by
  induction l generalizing l' with
  | nil =>
    simp only [traverseOpt, Option.some.injEq] at h
    subst h
    simp
  | cons a as ih =>
    simp only [traverseOpt] at h
    cases hfa : f a with
    | none => rw [hfa] at h; cases h
    | some b0 =>
      rw [hfa] at h
      cases hrest : traverseOpt f as with
      | none => rw [hrest] at h; cases h
      | some l2 =>
        rw [hrest] at h
        injection h with h'
        subst h'
        constructor
        · intro hb
          rcases List.mem_cons.mp hb with rfl | hb2
          · exact ⟨a, List.mem_cons_self a as, hfa⟩
          · obtain ⟨a', ha', hfa'⟩ := (ih hrest).mp hb2
            exact ⟨a', List.mem_cons_of_mem a ha', hfa'⟩
        · rintro ⟨a', ha', hfa'⟩
          rcases List.mem_cons.mp ha' with rfl | ha2
          · rw [hfa] at hfa'
            injection hfa' with hb0
            exact hb0 ▸ List.mem_cons_self b0 l2
          · exact List.mem_cons_of_mem b0 ((ih hrest).mpr ⟨a', ha2, hfa'⟩)

theorem traverseOpt_isSome {α β : Type} {f : α → Option β} {l : List α}
    (h : ∀ a ∈ l, (f a).isSome = true) : ∃ l', traverseOpt f l = some l' := by
  induction l with
  | nil => exact ⟨[], rfl⟩
  | cons a as ih =>
    obtain ⟨l', hl⟩ := ih (fun x hx => h x (List.mem_cons_of_mem a hx))
    obtain ⟨b, hb⟩ := Option.isSome_iff_exists.mp (h a (List.mem_cons_self a as))
    exact ⟨b :: l', by simp [traverseOpt, hb, hl]⟩

theorem rangeFilterF_eq_filter (k : Str) (lo hi : Option ℚ) (df : List AugRow) :
    rangeFilterF k lo hi df = df.filter (rangePredF k lo hi) := by
  cases lo <;> cases hi
  · exact (List.filter_true df).symm
  · rfl
  · rfl
  · rfl

theorem rangeFilterD_eq_filter (k : Str) (lo hi : Option Timestamp) (df : List AugRow) :
    rangeFilterD k lo hi df = df.filter (rangePredD k lo hi) := by
  cases lo <;> cases hi
  · exact (List.filter_true df).symm
  · rfl
  · rfl
  · rfl

theorem critStep_badRange {df : List AugRow} {k : Str} {vs : List (Option PyVal)}
    (h : vs.length ≠ 2) : critStep df (k, .range vs) = .error (.sakayDBError none) := by
  have hlen : (vs.length != 2) = true := by simpa using h
  simp [critStep, hlen]

theorem critStep_ok_eq_filter {df df' : List AugRow} {c : Str × CritVal}
    (h : critStep df c = .ok df') : df' = df.filter (critMatch c) := by
  obtain ⟨k, v⟩ := c
  cases v with
  | scalar v =>
    by_cases hfk : k ∈ floatKeys
    · cases hq : pyFloat v with
      | some q =>
        have hstep : critStep df (k, CritVal.scalar v)
            = .ok (df.filter (fun a => getFloatCol k a == q)) := by
          simp [critStep, hfk, hq]
        rw [hstep] at h
        injection h with h'
        have hm : critMatch (k, CritVal.scalar v) = fun a => getFloatCol k a == q := by
          funext a
          simp [critMatch, hfk, hq]
        rw [← h', hm]
      | none =>
        have hstep : critStep df (k, CritVal.scalar v) = .error (.sakayDBError none) := by
          simp [critStep, hfk, hq]
        rw [hstep] at h
        cases h
    · cases v with
      | str s =>
        cases hts : parseTimestamp s with
        | some t =>
          have hstep : critStep df (k, CritVal.scalar (PyVal.str s))
              = .ok (df.filter (fun a => tsKey (getDateCol k a) == tsKey t)) := by
            simp [critStep, hfk, hts]
          rw [hstep] at h
          injection h with h'
          have hm : critMatch (k, CritVal.scalar (PyVal.str s))
              = fun a => tsKey (getDateCol k a) == tsKey t := by
            funext a
            simp [critMatch, hfk, hts]
          rw [← h', hm]
        | none =>
          have hstep : critStep df (k, CritVal.scalar (PyVal.str s))
              = .error (.sakayDBError none) := by
            simp [critStep, hfk, hts]
          rw [hstep] at h
          cases h
      | int n =>
        have hstep : critStep df (k, CritVal.scalar (PyVal.int n))
            = .error (.sakayDBError none) := by
          simp [critStep, hfk]
        rw [hstep] at h
        cases h
      | float q =>
        have hstep : critStep df (k, CritVal.scalar (PyVal.float q))
            = .error (.sakayDBError none) := by
          simp [critStep, hfk]
        rw [hstep] at h
        cases h
  | range vs =>
    cases vs with
    | nil =>
      rw [critStep_badRange (by simp)] at h
      cases h
    | cons lo rest =>
      cases rest with
      | nil =>
        rw [critStep_badRange (by simp)] at h
        cases h
      | cons hi rest2 =>
        cases rest2 with
        | cons z t =>
          rw [critStep_badRange (by simp)] at h
          cases h
        | nil =>
          by_cases hfk : k ∈ floatKeys
          · cases hlo : convOptF lo with
            | none =>
              have hstep : critStep df (k, CritVal.range [lo, hi])
                  = .error (.sakayDBError none) := by
                simp [critStep, hfk, hlo]
              rw [hstep] at h
              cases h
            | some lo' =>
              cases hhi : convOptF hi with
              | none =>
                have hstep : critStep df (k, CritVal.range [lo, hi])
                    = .error (.sakayDBError none) := by
                  simp [critStep, hfk, hlo, hhi]
                rw [hstep] at h
                cases h
              | some hi' =>
                have hstep : critStep df (k, CritVal.range [lo, hi])
                    = .ok (rangeFilterF k lo' hi' df) := by
                  simp [critStep, hfk, hlo, hhi]
                rw [hstep] at h
                injection h with h'
                have hm : critMatch (k, CritVal.range [lo, hi]) = rangePredF k lo' hi' := by
                  funext a
                  simp [critMatch, hfk, hlo, hhi]
                rw [← h', hm, rangeFilterF_eq_filter]
          · cases hlo : convOptD lo with
            | none =>
              have hstep : critStep df (k, CritVal.range [lo, hi])
                  = .error (.sakayDBError none) := by
                simp [critStep, hfk, hlo]
              rw [hstep] at h
              cases h
            | some lo' =>
              cases hhi : convOptD hi with
              | none =>
                have hstep : critStep df (k, CritVal.range [lo, hi])
                    = .error (.sakayDBError none) := by
                  simp [critStep, hfk, hlo, hhi]
                rw [hstep] at h
                cases h
              | some hi' =>
                have hstep : critStep df (k, CritVal.range [lo, hi])
                    = .ok (rangeFilterD k lo' hi' df) := by
                  simp [critStep, hfk, hlo, hhi]
                rw [hstep] at h
                injection h with h'
                have hm : critMatch (k, CritVal.range [lo, hi]) = rangePredD k lo' hi' := by
                  funext a
                  simp [critMatch, hfk, hlo, hhi]
                rw [← h', hm, rangeFilterD_eq_filter]

theorem critStep_error_sakay {df : List AugRow} {c : Str × CritVal} {e : PyErr}
    (h : critStep df c = .error e) : e = .sakayDBError none := by
  have : critStep df c = .ok (df.filter (critMatch c)) ∨
      critStep df c = .error (.sakayDBError none) := by
    obtain ⟨k, v⟩ := c
    cases v with
    | scalar v =>
      by_cases hfk : k ∈ floatKeys
      · cases hq : pyFloat v with
        | some q =>
          left
          have hm : critMatch (k, CritVal.scalar v) = fun a => getFloatCol k a == q := by
            funext a
            simp [critMatch, hfk, hq]
          rw [hm]
          simp [critStep, hfk, hq]
        | none =>
          right
          simp [critStep, hfk, hq]
      · cases v with
        | str s =>
          cases hts : parseTimestamp s with
          | some t =>
            left
            have hm : critMatch (k, CritVal.scalar (PyVal.str s))
                = fun a => tsKey (getDateCol k a) == tsKey t := by
              funext a
              simp [critMatch, hfk, hts]
            rw [hm]
            simp [critStep, hfk, hts]
          | none =>
            right
            simp [critStep, hfk, hts]
        | int n =>
          right
          simp [critStep, hfk]
        | float q =>
          right
          simp [critStep, hfk]
    | range vs =>
      cases vs with
      | nil => exact Or.inr (critStep_badRange (by simp))
      | cons lo rest =>
        cases rest with
        | nil => exact Or.inr (critStep_badRange (by simp))
        | cons hi rest2 =>
          cases rest2 with
          | cons z t => exact Or.inr (critStep_badRange (by simp))
          | nil =>
            by_cases hfk : k ∈ floatKeys
            · cases hlo : convOptF lo with
              | none => exact Or.inr (by simp [critStep, hfk, hlo])
              | some lo' =>
                cases hhi : convOptF hi with
                | none => exact Or.inr (by simp [critStep, hfk, hlo, hhi])
                | some hi' =>
                  left
                  have hm : critMatch (k, CritVal.range [lo, hi]) = rangePredF k lo' hi' := by
                    funext a
                    simp [critMatch, hfk, hlo, hhi]
                  rw [hm, ← rangeFilterF_eq_filter]
                  simp [critStep, hfk, hlo, hhi]
            · cases hlo : convOptD lo with
              | none => exact Or.inr (by simp [critStep, hfk, hlo])
              | some lo' =>
                cases hhi : convOptD hi with
                | none => exact Or.inr (by simp [critStep, hfk, hlo, hhi])
                | some hi' =>
                  left
                  have hm : critMatch (k, CritVal.range [lo, hi]) = rangePredD k lo' hi' := by
                    funext a
                    simp [critMatch, hfk, hlo, hhi]
                  rw [hm, ← rangeFilterD_eq_filter]
                  simp [critStep, hfk, hlo, hhi]
  rcases this with hok | herr
  · rw [h] at hok
    cases hok
  · rw [h] at herr
    exact Except.error.inj herr

theorem applyCrits_ok_eq_filter {cs : List (Str × CritVal)} {df df' : List AugRow}
    (h : applyCrits cs df = .ok df') :
    df' = df.filter (fun a => cs.all (fun c => critMatch c a)) := by
  induction cs generalizing df with
  | nil =>
    simp only [applyCrits] at h
    injection h with h'
    simp [← h']
  | cons c cs ih =>
    simp only [applyCrits] at h
    cases hs : critStep df c with
    | error e => rw [hs] at h; cases h
    | ok d1 =>
      rw [hs] at h
      have h1 := critStep_ok_eq_filter hs
      subst h1
      rw [ih h, List.filter_filter]
      apply List.filter_congr
      intro a _
      simp [Bool.and_comm]

theorem applyCrits_badRange {cs : List (Str × CritVal)} {df : List AugRow}
    (h : ∃ c ∈ cs, ∃ k vs, c = (k, CritVal.range vs) ∧ vs.length ≠ 2) :
    applyCrits cs df = .error (.sakayDBError none) := by
  induction cs generalizing df with
  | nil => obtain ⟨c, hc, _⟩ := h; cases hc
  | cons c0 cs ih =>
    obtain ⟨c, hc, k, vs, hck, hlen⟩ := h
    rcases List.mem_cons.mp hc with rfl | hc2
    · subst hck
      simp only [applyCrits, critStep_badRange hlen]
    · simp only [applyCrits]
      cases hs : critStep df c0 with
      | error e =>
        have he := critStep_error_sakay hs
        subst he
        rfl
      | ok d1 => exact ih ⟨c, hc2, k, vs, hck, hlen⟩

theorem add_trip_ok_trip_id {st : DBState} {i : AddTripInput} {st' : DBState} {k : Nat}
    (h : add_trip st i = .ok (st', k)) :
    (st.trips = none ∧ k = 1) ∨
      (∃ df lr, st.trips = some df ∧ df.getLast? = some lr ∧ k = lr.trip_id + 1) := by
  unfold add_trip at h
  split at h
  · cases h
  · split at h
    · cases h
    · split at h
      · cases h
      · split at h
        · cases h
        · split at h
          · split at h
            · split at h
              · injection h with h1
                exact Or.inr ⟨_, _, by assumption, by assumption, (congrArg Prod.snd h1).symm⟩
              · cases h
            · cases h
          · injection h with h1
            exact Or.inl ⟨by assumption, (congrArg Prod.snd h1).symm⟩

theorem add_trip_invalid {st : DBState} {i : AddTripInput}
    (hv : validateInput i = none) :
    add_trip st i = .error (.sakayDBError (some msgInvalid)) := by
  unfold add_trip
  rw [hv]

theorem add_trip_duplicate {st : DBState} {i : AddTripInput} {v : ValidInput}
    {dfd : List DriverRec} {did : Nat} {dflp : List LocRec} {pid : Nat}
    {dfl : List LocRec} {doid : Nat} {df : List TripRec}
    (hv : validateInput i = some v)
    (hd : resolveDriver st.drivers v.last_name v.given_name = .ok (dfd, did))
    (hp : resolveLocation st.locations v.pickup_loc = .ok (dflp, pid))
    (hq : resolveLocation st.locations v.dropoff_loc = .ok (dfl, doid))
    (ht : st.trips = some df)
    (hdup : ∃ r ∈ df, tripMatches v did pid doid r = true) :
    add_trip st i = .error (.sakayDBError (some msgDup)) := by
  obtain ⟨r, hr, hm⟩ := hdup
  have hmem : r ∈ df.filter (tripMatches v did pid doid) := List.mem_filter.mpr ⟨hr, hm⟩
  have hne : ¬(df.filter (tripMatches v did pid doid)).length = 0 := by
    intro h0
    rw [List.length_eq_zero] at h0
    rw [h0] at hmem
    cases hmem
  simp only [add_trip, hv, hd, hp, hq, ht]
  simp [hne]

theorem delete_trip_ok_char {st : DBState} {tid : Nat} {st' : DBState} {r : Nat}
    (h : delete_trip st tid = .ok (st', r)) :
    ∃ df, st.trips = some df ∧
      st' = { st with trips := some (df.filter (fun t => t.trip_id != tid)) } ∧ r = tid := by
  unfold delete_trip at h
  split at h
  · split at h
    · cases h
    · injection h with h1
      exact ⟨_, by assumption, (congrArg Prod.fst h1).symm, (congrArg Prod.snd h1).symm⟩
  · cases h

theorem getLast?_filter_last {l : List TripRec} {lr : TripRec} {p : TripRec → Bool}
    (h : l.getLast? = some lr) (hp : p lr = true) :
    (l.filter p).getLast? = some lr := by
  obtain ⟨ys, rfl⟩ := List.getLast?_eq_some_iff.mp h
  rw [List.filter_append]
  have h1 : List.filter p [lr] = [lr] := by simp [hp]
  rw [h1, List.getLast?_concat]

theorem parseAugRow_eq_some {x : TripRec} {a : AugRow} :
    parseAugRow x = some a ↔
      x = a.1 ∧ parseTimestamp x.pickup_datetime = some a.2.1 ∧
        parseTimestamp x.dropoff_datetime = some a.2.2 := by
  constructor
  · intro h
    unfold parseAugRow at h
    cases hp : parseTimestamp x.pickup_datetime with
    | none => rw [hp] at h; cases h
    | some p0 =>
      cases hd : parseTimestamp x.dropoff_datetime with
      | none => rw [hp, hd] at h; cases h
      | some d0 =>
        rw [hp, hd] at h
        injection h with h'
        subst h'
        exact ⟨rfl, rfl, rfl⟩
  · obtain ⟨a1, a2, a3⟩ := a
    rintro ⟨rfl, h2, h3⟩
    unfold parseAugRow
    rw [h2, h3]

theorem search_trips_ok_char {st : DBState} {criteria : List (Str × CritVal)}
    {df : List TripRec} {result : List TripRec}
    (hne : criteria ≠ [])
    (hvalid : ∀ kv ∈ criteria, kv.1 ∈ validKeys)
    (ht : st.trips = some df)
    (h : search_trips st criteria = .ok result) :
    ∀ r : TripRec, r ∈ result ↔
      ∃ p d, parseTimestamp r.pickup_datetime = some p ∧
        parseTimestamp r.dropoff_datetime = some d ∧ r ∈ df ∧
        ∀ c ∈ criteria, critMatch c (r, p, d) = true := by
  unfold search_trips at h
  have hc1 : criteria.isEmpty = false := by
    cases criteria with
    | nil => exact absurd rfl hne
    | cons c cs => rfl
  have hc2 : criteria.any (fun kv => !(validKeys.contains kv.1)) = false := by
    rw [List.any_eq_false]
    intro kv hkv
    have hmem := hvalid kv hkv
    simp [hmem]
  rw [hc1, hc2] at h
  rw [if_neg (by simp)] at h
  simp only [ht] at h
  cases hparse : traverseOpt parseAugRow df with
  | none => simp only [hparse] at h; cases h
  | some aug =>
    simp only [hparse] at h
    cases happ : applyCrits criteria aug with
    | error e => simp only [happ] at h; cases h
    | ok aug' =>
      simp only [happ] at h
      injection h with h1
      subst h1
      have hfilter := applyCrits_ok_eq_filter happ
      intro r
      rw [List.mem_map]
      constructor
      · rintro ⟨a, ha, rfl⟩
        have ha2 : a ∈ aug' := mem_sortBy.mp ha
        rw [hfilter] at ha2
        obtain ⟨haug, hpred⟩ := List.mem_filter.mp ha2
        obtain ⟨x, hx, hxa⟩ := (traverseOpt_mem hparse a).mp haug
        obtain ⟨hx1, hx2, hx3⟩ := parseAugRow_eq_some.mp hxa
        subst hx1
        refine ⟨a.2.1, a.2.2, hx2, hx3, hx, ?_⟩
        intro c hc
        exact List.all_eq_true.mp hpred c hc
      · rintro ⟨p, d, hp2, hd2, hrdf, hall⟩
        refine ⟨(r, p, d), ?_, rfl⟩
        rw [mem_sortBy, hfilter]
        apply List.mem_filter.mpr
        constructor
        · exact (traverseOpt_mem hparse (r, p, d)).mpr
            ⟨r, hrdf, parseAugRow_eq_some.mpr ⟨rfl, hp2, hd2⟩⟩
        · exact List.all_eq_true.mpr hall

/-- Claim C1: the spec claims that after a successful add_trip the trip's
driver_id, pickup_loc_id and dropoff_loc_id each resolve, in the tables
persisted by that call, to the record carrying the given (title-cased)
name - in particular when both location names are new and distinct.  The
code violates this: the dropoff block re-reads locations.csv, discarding
the pickup append, so on a fresh store with pickup "A" and dropoff "B"
the persisted locations table holds only ⟨1, "B"⟩ while the trip
references pickup_loc_id = 1 - which resolves to "B", not "A", and no
record named "A" exists at all.  This theorem evaluates add_trip at that
failing input. -/
theorem c1_pickup_location_lost :
    add_trip ⟨none, none, none⟩ c1_input =
      .ok (⟨some [⟨1, sl "Juan", sl "Cruz"⟩], some [⟨1, sl "B"⟩],
            some [⟨1, 1, dt0800, dt0900, 1, 1, 1, 100, 50⟩]⟩, 1)
    ∧ ([⟨1, sl "B"⟩] : List LocRec).all
        (fun r => !(pyLower r.loc_name == pyLower (sl "A"))) = true := by
  exact ⟨rfl, by decide⟩

/-- Claim C5: the spec claims that two add_trip calls whose driver strings
agree up to case resolve to the same driver_id with no new driver row
(true here: both calls resolve "Cruz, Juan"/"cruz, JUAN" to driver_id 1),
and that the same holds for location names.  The location half fails: the
first call's new pickup "Alpha" is assigned location_id 1 but the append
is discarded by the dropoff block's re-read, so the second call's
case-equal pickup "alpha" finds no match and is assigned location_id 2 -
the two case-equal pickup names resolve to different ids, and neither id
resolves to a record named "Alpha" (id 1 is "Beta", id 2 is "Gamma"). -/
theorem c5_location_ids_diverge :
    add_trip ⟨none, none, none⟩ c5_input1 = .ok (c5_state1, 1)
    ∧ add_trip c5_state1 c5_input2 = .ok (c5_state2, 2)
    ∧ (match c5_state1.trips with
       | some (t :: _) => t.pickup_loc_id
       | _ => 0) = 1
    ∧ (match c5_state2.trips with
       | some (_ :: t :: _) => t.pickup_loc_id
       | _ => 0) = 2 := by
  exact ⟨rfl, rfl, rfl, rfl⟩

/-- Claim C4: any scalar coercion failure in add_trip's validation block -
an unparseable timestamp, a passenger_count that is not an integer, a
non-numeric trip_distance or fare_amount, or a driver string that does
not split into exactly a last/given pair - raises the single uniform
"has invalid or incomplete information" SakayDBError, for every persisted
state alike (the validation block runs before any table is read, and the
error result means no table was written). -/
theorem c4_invalid_input_uniform_error :
    ∀ (st : DBState) (i : AddTripInput), validateInput i = none →
      add_trip st i = .error (.sakayDBError (some msgInvalid)) := by
  intro st i hv
  unfold add_trip
  rw [hv]

theorem c4_witness :
    validateInput c4_input = none ∧
      add_trip ⟨some [⟨1, sl "Juan", sl "Cruz"⟩], some [⟨1, sl "A"⟩], some []⟩
        c4_input = .error (.sakayDBError (some msgInvalid)) :=
  ⟨rfl, c4_invalid_input_uniform_error
    ⟨some [⟨1, sl "Juan", sl "Cruz"⟩], some [⟨1, sl "A"⟩], some []⟩ c4_input rfl⟩

/-- Claim C2: whenever the validated input's resolved fields (driver id
and the two location ids, as produced by the resolvers against the
current tables) match some existing ledger row exactly on driver_id, the
two timestamp strings, passenger_count and both location ids, and within
np.isclose tolerance on trip_distance and fare_amount, add_trip raises
the "is already in the database" SakayDBError; the error result means the
operation performed none of its three to_csv writes, leaving all
persisted state unchanged. -/
theorem c2_duplicate_rejected :
    ∀ (st : DBState) (i : AddTripInput) (v : ValidInput)
      (dfd : List DriverRec) (did : Nat) (dflp : List LocRec) (pid : Nat)
      (dfl : List LocRec) (doid : Nat) (df : List TripRec),
      validateInput i = some v →
      resolveDriver st.drivers v.last_name v.given_name = .ok (dfd, did) →
      resolveLocation st.locations v.pickup_loc = .ok (dflp, pid) →
      resolveLocation st.locations v.dropoff_loc = .ok (dfl, doid) →
      st.trips = some df →
      (∃ r ∈ df, tripMatches v did pid doid r = true) →
      add_trip st i = .error (.sakayDBError (some msgDup)) := by
  intro st i v dfd did dflp pid dfl doid df hv hd hp hq ht hdup
  exact add_trip_duplicate hv hd hp hq ht hdup

theorem c2_witness :
    add_trip c2_state c2_input = .error (.sakayDBError (some msgDup)) := by
  have h1 : isclose (100 : ℚ) 100 = true := by
    simp only [isclose, decide_eq_true_eq]
    rw [sub_self, abs_zero]
    positivity
  have h2 : isclose (50 : ℚ) (50 + 1 / 1000000000) = true := by
    simp only [isclose, decide_eq_true_eq]
    rw [abs_sub_comm,
      abs_of_nonneg (by norm_num : (0 : ℚ) ≤ 50 + 1 / 1000000000 - 50),
      abs_of_nonneg (by norm_num : (0 : ℚ) ≤ 50 + 1 / 1000000000)]
    norm_num
  have hmatch : tripMatches c2_valid 1 1 1 c2_trip = true := by
    show (isclose (100 : ℚ) 100 && isclose (50 : ℚ) (50 + 1 / 1000000000)) = true
    rw [h1, h2]
    rfl
  exact c2_duplicate_rejected c2_state c2_input c2_valid
    [⟨1, sl "Juan", sl "Cruz"⟩] 1 [⟨1, sl "A"⟩] 1 [⟨1, sl "A"⟩] 1 [c2_trip]
    rfl rfl rfl rfl rfl ⟨c2_trip, List.mem_singleton.mpr rfl, hmatch⟩

/-- Claim C3 counterexample: the claim says an add against an
existing-but-empty trips table yields trip_id 1.  On a store whose
trips.csv exists with zero rows (reachable by deleting the last trip),
add_trip instead raises an uncaught KeyError: the id is taken from
`df_trips.loc[shape-1, 'trip_id']`, and label -1 does not exist in the
empty frame.  The add is not successful at all. -/
theorem c3_counterexample_empty_table :
    add_trip c3_state c3_input = .error (.pyExn keyErrorStr)
    ∧ isOkE (add_trip c3_state c3_input) = false :=
  ⟨rfl, rfl⟩

/-- Claim C3 (amended): a successful add_trip assigns the new trip_id as
(the last stored row's trip_id) + 1 - which equals max + 1 whenever ids
appear in increasing file order, as in every state this system itself
writes - or 1 when the trips table is absent; in particular, deleting a
trip whose id differs from the last row's id and then adding
successfully yields (last row's id) + 1, so after creating trips 1..n
and deleting k < n the next id is n + 1 and a deleted id is never
reused.  However, an add against an existing-but-empty trips table
raises a KeyError rather than returning trip_id 1 (see the
counterexample). -/
theorem c3_amended_id_assignment :
    (∀ (st : DBState) (i : AddTripInput) (st' : DBState) (k : Nat),
        add_trip st i = .ok (st', k) →
        (st.trips = none ∧ k = 1) ∨
          (∃ df lr, st.trips = some df ∧ df.getLast? = some lr ∧ k = lr.trip_id + 1))
    ∧ (∀ (st : DBState) (df : List TripRec) (lr : TripRec) (tid : Nat)
        (st₁ : DBState) (r : Nat) (i : AddTripInput) (st' : DBState) (k : Nat),
        st.trips = some df → df.getLast? = some lr → tid ≠ lr.trip_id →
        delete_trip st tid = .ok (st₁, r) → add_trip st₁ i = .ok (st', k) →
        k = lr.trip_id + 1) := by
  constructor
  · intro st i st' k h
    exact add_trip_ok_trip_id h
  · intro st df lr tid st₁ r i st' k ht hl htid hdel hadd
    obtain ⟨df0, ht0, hst₁, hr⟩ := delete_trip_ok_char hdel
    rw [ht] at ht0
    injection ht0 with ht0
    subst ht0
    have hlr : (lr.trip_id != tid) = true := by
      rw [bne_iff_ne]
      exact fun hx => htid (hx.symm)
    have hl2 : (df.filter (fun t => t.trip_id != tid)).getLast? = some lr :=
      getLast?_filter_last hl hlr
    rcases add_trip_ok_trip_id hadd with ⟨hnone, _⟩ | ⟨df2, lr2, hsome, hlast, hk⟩
    · rw [hst₁] at hnone
      simp at hnone
    · rw [hst₁] at hsome
      simp only [Option.some.injEq] at hsome
      rw [← hsome] at hlast
      rw [hl2] at hlast
      injection hlast with h3
      rw [hk, ← h3]

theorem c3_witness :
    delete_trip c3w_state 2 = .ok (c3w_state1, 2)
    ∧ add_trip c3w_state1 c3w_input = .ok (c3w_state2, 4)
    ∧ (4 : Nat) = 3 + 1 := by
  refine ⟨rfl, rfl, ?_⟩
  exact c3_amended_id_assignment.2 c3w_state c3w_rows
    (⟨3, 1, dt1000, dt1100, 1, 1, 1, 100, 70⟩ : TripRec) 2 c3w_state1 2
    c3w_input c3w_state2 4 rfl rfl (by decide) rfl rfl

/-- Claim C6: search_trips with zero criteria, or with any criterion key
outside the six accepted field names, raises a bare SakayDBError at once
- the check precedes every access to the trips table (the statement holds
for every state, including one whose trips.csv is absent) and does not
depend on the other keys being valid. -/
theorem c6_search_key_validation :
    ∀ (st : DBState) (criteria : List (Str × CritVal)),
      (criteria = [] ∨ ∃ kv ∈ criteria, kv.1 ∉ validKeys) →
      search_trips st criteria = .error (.sakayDBError none) := by
  intro st criteria h
  unfold search_trips
  have hcond :
      (criteria.isEmpty || criteria.any (fun kv => !(validKeys.contains kv.1))) = true := by
    rcases h with rfl | ⟨kv, hkv, hnot⟩
    · rfl
    · apply Bool.or_eq_true_iff.mpr
      right
      exact List.any_eq_true.mpr ⟨kv, hkv, by simp [hnot]⟩
  rw [if_pos hcond]

theorem c6_witness :
    search_trips ⟨none, none, none⟩
        [(sl "driver_id", CritVal.scalar (PyVal.int 1)),
         (sl "fare", CritVal.scalar (PyVal.int 1))] = .error (.sakayDBError none)
    ∧ search_trips ⟨none, none, some []⟩ [] = .error (.sakayDBError none) :=
  ⟨c6_search_key_validation ⟨none, none, none⟩
      [(sl "driver_id", CritVal.scalar (PyVal.int 1)),
       (sl "fare", CritVal.scalar (PyVal.int 1))]
      (Or.inr ⟨(sl "fare", CritVal.scalar (PyVal.int 1)), by decide, by decide⟩),
   c6_search_key_validation ⟨none, none, some []⟩ [] (Or.inl rfl)⟩

theorem search_checks_pass {criteria : List (Str × CritVal)}
    (hne : criteria ≠ []) (hvalid : ∀ kv ∈ criteria, kv.1 ∈ validKeys) :
    (criteria.isEmpty || criteria.any (fun kv => !(validKeys.contains kv.1))) = false := by
  have hc1 : criteria.isEmpty = false := by
    cases criteria with
    | nil => exact absurd rfl hne
    | cons c cs => rfl
  have hc2 : criteria.any (fun kv => !(validKeys.contains kv.1)) = false := by
    rw [List.any_eq_false]
    intro kv hkv
    have hmem := hvalid kv hkv
    simp [hmem]
  rw [hc1, hc2]
  rfl

/-- Claim C7: for valid criteria over a present ledger, (1) a row belongs
to the result of search_trips exactly when it belongs to the ledger, its
two timestamp strings parse, and it satisfies every supplied criterion -
critMatch being exact equality for scalars, an inclusive two-sided bound
for a two-element range with both ends present, a one-sided inclusive
bound when one end is None, and timestamp comparison after parsing under
the fixed format; and (2) a range criterion whose tuple length is not two
raises the usage error (given that the stored datetimes parse, so that
the engine reaches the filter loop). -/
theorem c7_search_filter_semantics :
    (∀ (st : DBState) (criteria : List (Str × CritVal))
        (df : List TripRec) (result : List TripRec),
        criteria ≠ [] → (∀ kv ∈ criteria, kv.1 ∈ validKeys) →
        st.trips = some df → search_trips st criteria = .ok result →
        ∀ r : TripRec, r ∈ result ↔
          ∃ p d, parseTimestamp r.pickup_datetime = some p ∧
            parseTimestamp r.dropoff_datetime = some d ∧ r ∈ df ∧
            ∀ c ∈ criteria, critMatch c (r, p, d) = true)
    ∧ (∀ (st : DBState) (criteria : List (Str × CritVal)) (df : List TripRec)
        (aug : List AugRow) (k : Str) (vs : List (Option PyVal)),
        criteria ≠ [] → (∀ kv ∈ criteria, kv.1 ∈ validKeys) →
        st.trips = some df → traverseOpt parseAugRow df = some aug →
        (k, CritVal.range vs) ∈ criteria → vs.length ≠ 2 →
        search_trips st criteria = .error (.sakayDBError none)) := by
  constructor
  · intro st criteria df result hne hvalid ht h
    exact search_trips_ok_char hne hvalid ht h
  · intro st criteria df aug k vs hne hvalid ht hparse hmem hlen
    unfold search_trips
    rw [search_checks_pass hne hvalid]
    rw [if_neg (by simp)]
    simp only [ht, hparse]
    rw [applyCrits_badRange ⟨(k, CritVal.range vs), hmem, k, vs, rfl, hlen⟩]

theorem c7_witness :
    search_trips c7_state c7_crit = .ok c7_result
    ∧ c7_row2 ∈ c7_result
    ∧ c7_row3 ∉ c7_result
    ∧ search_trips c7_state
        [(sl "fare_amount", CritVal.range [none, none, none])]
        = .error (.sakayDBError none) := by
  have hsearch : search_trips c7_state c7_crit = .ok c7_result := rfl
  have hchar := c7_search_filter_semantics.1 c7_state c7_crit
    [c7_row1, c7_row2, c7_row3] c7_result (by decide) (by decide) rfl hsearch
  refine ⟨hsearch, ?_, ?_, ?_⟩
  · exact (hchar c7_row2).mpr
      ⟨c7_ts1, c7_ts2, by decide, by decide, by decide, by decide⟩
  · intro hmem
    obtain ⟨p, d, hp, hd, hdf, hall⟩ := (hchar c7_row3).mp hmem
    have hf : critMatch (sl "fare_amount",
        CritVal.range [some (PyVal.float 50), some (PyVal.float 75)])
        (c7_row3, p, d) = false := rfl
    exact Bool.false_ne_true (hf.symm.trans (hall _ (by decide)))
  · exact c7_search_filter_semantics.2 c7_state
      [(sl "fare_amount", CritVal.range [none, none, none])]
      [c7_row1, c7_row2, c7_row3] c7_aug (sl "fare_amount") [none, none, none]
      (by decide) (by decide) rfl rfl (by decide) (by decide)

/-- Claim C8: every read-path operation treats an absent backing table as
a normal empty result, never an error - search_trips with valid criteria
returns the empty list when trips.csv is absent; export_data returns the
empty view (with its fixed column set) when any of the three files is
absent; generate_statistics with a valid kind returns the empty mapping
when trips.csv is absent (for kind "all", the mapping of three empty
mappings) and, for kind "driver", also when drivers.csv is absent;
generate_odmatrix returns the empty frame when trips.csv or
locations.csv is absent, whatever the date_range argument.  Only
malformed query parameters raise on these paths: in particular a
date_range tuple of length other than two raises the usage error once
both tables are present (and the stored pickup datetimes parse, as the
column conversion precedes the range check). -/
theorem c8_read_paths_absent_tables :
    (∀ (st : DBState) (criteria : List (Str × CritVal)),
        criteria ≠ [] → (∀ kv ∈ criteria, kv.1 ∈ validKeys) → st.trips = none →
        search_trips st criteria = .ok [])
    ∧ (∀ st : DBState, st.trips = none ∨ st.drivers = none ∨ st.locations = none →
        export_data st = [])
    ∧ (∀ st : DBState, st.trips = none →
        generate_statistics st (sl "trip") = .ok (StatsOut.trip [])
        ∧ generate_statistics st (sl "passenger") = .ok (StatsOut.passenger [])
        ∧ generate_statistics st (sl "driver") = .ok (StatsOut.driver [])
        ∧ generate_statistics st (sl "all") = .ok (StatsOut.all ⟨[], [], []⟩))
    ∧ (∀ st : DBState, st.drivers = none →
        generate_statistics st (sl "driver") = .ok (StatsOut.driver []))
    ∧ (∀ (st : DBState) (dr : DateRangeArg),
        st.trips = none ∨ st.locations = none → generate_odmatrix st dr = .ok [])
    ∧ (∀ (st : DBState) (dft : List TripRec) (dfl : List LocRec)
        (vs : List (Option Str)),
        st.trips = some dft → st.locations = some dfl →
        (∀ x ∈ odMergedRows dft dfl, (parseTimestamp x.pickup_datetime).isSome = true) →
        vs.length ≠ 2 →
        generate_odmatrix st (.tup vs) = .error (.sakayDBError none)) := by
  refine ⟨?_, ?_, ?_, ?_, ?_, ?_⟩
  · intro st criteria hne hvalid ht
    unfold search_trips
    rw [search_checks_pass hne hvalid]
    rw [if_neg (by simp)]
    rw [ht]
  · intro st h
    obtain ⟨d, l, t⟩ := st
    rcases h with h | h | h
    · simp only at h
      subst h
      rfl
    · simp only at h
      subst h
      cases t with
      | none => rfl
      | some dft => rfl
    · simp only at h
      subst h
      cases t with
      | none => rfl
      | some dft =>
        cases d with
        | none => rfl
        | some dfd => rfl
  · intro st h
    obtain ⟨d, l, t⟩ := st
    simp only at h
    subst h
    exact ⟨rfl, rfl, rfl, rfl⟩
  · intro st h
    obtain ⟨d, l, t⟩ := st
    simp only at h
    subst h
    cases t with
    | none => rfl
    | some dft => rfl
  · intro st dr h
    obtain ⟨d, l, t⟩ := st
    rcases h with h | h
    · simp only at h
      subst h
      rfl
    · simp only at h
      subst h
      cases t with
      | none => rfl
      | some dft => rfl
  · intro st dft dfl vs ht hloc hparse hlen
    have hps : ∀ x ∈ odMergedRows dft dfl, (parseOdRow x).isSome = true := by
      intro x hx
      obtain ⟨t0, ht0⟩ := Option.isSome_iff_exists.mp (hparse x hx)
      unfold parseOdRow
      rw [ht0]
      rfl
    obtain ⟨rows, hrows⟩ := traverseOpt_isSome hps
    have hrange : odRangeFilter (.tup vs) rows = .error (.sakayDBError none) := by
      have hl2 : (vs.length != 2) = true := by simpa using hlen
      simp [odRangeFilter, hl2]
    unfold generate_odmatrix
    simp only [ht, hloc, hrows, hrange]

theorem c8_witness :
    search_trips ⟨some [], some [], none⟩
        [(sl "driver_id", CritVal.scalar (PyVal.int 1))] = .ok []
    ∧ export_data ⟨none, some [⟨1, sl "A"⟩], some [c8_trip]⟩ = []
    ∧ generate_statistics ⟨some [], some [], none⟩ (sl "all")
        = .ok (StatsOut.all ⟨[], [], []⟩)
    ∧ generate_statistics c8_state (sl "driver") = .ok (StatsOut.driver [])
    ∧ generate_odmatrix ⟨none, none, none⟩ DateRangeArg.other = .ok []
    ∧ generate_odmatrix c8_state (DateRangeArg.tup [none, none, none])
        = .error (.sakayDBError none) := by
  refine ⟨?_, ?_, ?_, ?_, ?_, ?_⟩
  · exact c8_read_paths_absent_tables.1 ⟨some [], some [], none⟩
      [(sl "driver_id", CritVal.scalar (PyVal.int 1))] (by decide) (by decide) rfl
  · exact c8_read_paths_absent_tables.2.1 ⟨none, some [⟨1, sl "A"⟩], some [c8_trip]⟩
      (Or.inr (Or.inl rfl))
  · exact (c8_read_paths_absent_tables.2.2.1 ⟨some [], some [], none⟩ rfl).2.2.2
  · exact c8_read_paths_absent_tables.2.2.2.1 c8_state rfl
  · exact c8_read_paths_absent_tables.2.2.2.2.1 ⟨none, none, none⟩
      DateRangeArg.other (Or.inl rfl)
  · exact c8_read_paths_absent_tables.2.2.2.2.2 c8_state [c8_trip] [⟨1, sl "A"⟩]
      [none, none, none] rfl rfl (by decide) (by decide)

/-- Claim C9 counterexample: the claim states the drivers table is
persisted with columns in the order driver_id, last_name, given_name.
The frame the source builds and writes (line 107) orders them driver_id,
given_name, last_name instead: after a successful add_trip of driver
"Cruz, Juan" on a fresh store, the persisted drivers table's header is
[driver_id, given_name, last_name] - not the claimed order - and the
sole data row carries the given name "Juan" in column 2. -/
theorem c9_counterexample_driver_columns :
    add_trip ⟨none, none, none⟩ c9_input =
      .ok (⟨some [⟨1, sl "Juan", sl "Cruz"⟩], some [⟨1, sl "A"⟩],
            some [⟨1, 1, dt0800, dt0900, 1, 1, 1, 1, 1⟩]⟩, 1)
    ∧ (persistDrivers [⟨1, sl "Juan", sl "Cruz"⟩]).1
        ≠ [sl "driver_id", sl "last_name", sl "given_name"]
    ∧ persistDrivers [⟨1, sl "Juan", sl "Cruz"⟩]
        = ([sl "driver_id", sl "given_name", sl "last_name"],
           [[Cell.nat 1, Cell.str (sl "Juan"), Cell.str (sl "Cruz")]]) :=
  ⟨rfl, by decide, rfl⟩

/-- Claim C9 (amended): for every state persisted by a successful
add_trip, the drivers table is persisted with columns in the order
driver_id, given_name, last_name (given before last - this is the one
divergence from the claim); the locations table as location_id,
loc_name; and the trips table as trip_id, driver_id, pickup_datetime,
dropoff_datetime, passenger_count, pickup_loc_id, dropoff_loc_id,
trip_distance, fare_amount; every persisted row has exactly one cell per
column. -/
theorem c9_amended_column_order :
    ∀ (st : DBState) (i : AddTripInput) (st' : DBState) (k : Nat)
      (dfd : List DriverRec) (dfl : List LocRec) (dft : List TripRec),
      add_trip st i = .ok (st', k) →
      st'.drivers = some dfd → st'.locations = some dfl → st'.trips = some dft →
      (persistDrivers dfd).1 = [sl "driver_id", sl "given_name", sl "last_name"]
      ∧ (persistLocations dfl).1 = [sl "location_id", sl "loc_name"]
      ∧ (persistTrips dft).1 = tripsHeader
      ∧ (∀ row ∈ (persistDrivers dfd).2, row.length = 3)
      ∧ (∀ row ∈ (persistLocations dfl).2, row.length = 2)
      ∧ (∀ row ∈ (persistTrips dft).2, row.length = 9) := by
  intro st i st' k dfd dfl dft _ _ _ _
  refine ⟨rfl, rfl, rfl, ?_, ?_, ?_⟩
  · intro row hrow
    simp only [persistDrivers, List.mem_map] at hrow
    obtain ⟨r, _, hr⟩ := hrow
    rw [← hr]
    rfl
  · intro row hrow
    simp only [persistLocations, List.mem_map] at hrow
    obtain ⟨r, _, hr⟩ := hrow
    rw [← hr]
    rfl
  · intro row hrow
    simp only [persistTrips, List.mem_map] at hrow
    obtain ⟨r, _, hr⟩ := hrow
    rw [← hr]
    rfl

theorem c9_witness :
    (persistDrivers [⟨1, sl "Juan", sl "Cruz"⟩]).1
        = [sl "driver_id", sl "given_name", sl "last_name"]
    ∧ (persistLocations [⟨1, sl "A"⟩]).1 = [sl "location_id", sl "loc_name"]
    ∧ (persistTrips [⟨1, 1, dt0800, dt0900, 1, 1, 1, 1, 1⟩]).1 = tripsHeader :=
  have h := c9_amended_column_order ⟨none, none, none⟩ c9_input
    ⟨some [⟨1, sl "Juan", sl "Cruz"⟩], some [⟨1, sl "A"⟩],
     some [⟨1, 1, dt0800, dt0900, 1, 1, 1, 1, 1⟩]⟩ 1
    [⟨1, sl "Juan", sl "Cruz"⟩] [⟨1, sl "A"⟩]
    [⟨1, 1, dt0800, dt0900, 1, 1, 1, 1, 1⟩] rfl rfl rfl rfl
  ⟨h.1, h.2.1, h.2.2.1⟩

/-- Claim C10: delete_trip writes back only the trips table - on success
the new state keeps drivers and locations untouched and its trips table
holds exactly the rows whose trip_id differs from the argument, in their
original order, with the id returned; the drivers and locations tables
are not read either (the outcome, projected on its trips table and
return value, is the same for any contents of the other two tables); and
when the ledger file is absent, or no row carries the id, the bare
SakayDBError is raised with nothing written. -/
theorem c10_delete_frame :
    (∀ (st : DBState) (tid : Nat) (st' : DBState) (r : Nat),
        delete_trip st tid = .ok (st', r) →
        ∃ df, st.trips = some df ∧
          st' = { st with trips := some (df.filter (fun t => t.trip_id != tid)) }
          ∧ r = tid)
    ∧ (∀ (d₁ d₂ : Option (List DriverRec)) (l₁ l₂ : Option (List LocRec))
        (t : Option (List TripRec)) (tid : Nat),
        (delete_trip ⟨d₁, l₁, t⟩ tid).map (fun p => (p.1.trips, p.2))
          = (delete_trip ⟨d₂, l₂, t⟩ tid).map (fun p => (p.1.trips, p.2)))
    ∧ (∀ (st : DBState) (tid : Nat),
        (st.trips = none ∨ ∃ df, st.trips = some df ∧ ∀ tr ∈ df, tr.trip_id ≠ tid) →
        delete_trip st tid = .error (.sakayDBError none)) := by
  refine ⟨?_, ?_, ?_⟩
  · intro st tid st' r h
    exact delete_trip_ok_char h
  · intro d₁ d₂ l₁ l₂ t tid
    cases t with
    | none => rfl
    | some df =>
      by_cases hc : ((df.filter (fun tr => tr.trip_id == tid)).length == 0) = true
      · simp [delete_trip, hc]
      · simp [delete_trip, hc, Except.map]
  · intro st tid h
    obtain ⟨d, l, t⟩ := st
    rcases h with h | ⟨df, h, hall⟩
    · simp only at h
      subst h
      rfl
    · simp only at h
      subst h
      have hnil : df.filter (fun tr => tr.trip_id == tid) = [] :=
        List.filter_eq_nil_iff.mpr (fun a ha => by simpa using hall a ha)
      simp [delete_trip, hnil]

theorem c10_witness :
    delete_trip c10_state 2 = .ok (c10_state1, 2)
    ∧ (∃ df, c10_state.trips = some df ∧
        c10_state1 = { c10_state with
          trips := some (df.filter (fun t => t.trip_id != 2)) } ∧ (2 : Nat) = 2)
    ∧ (delete_trip ⟨some [⟨1, sl "Juan", sl "Cruz"⟩], none, some c10_rows⟩ 2).map
        (fun p => (p.1.trips, p.2))
      = (delete_trip ⟨none, some [⟨1, sl "A"⟩], some c10_rows⟩ 2).map
        (fun p => (p.1.trips, p.2))
    ∧ delete_trip c10_state 9 = .error (.sakayDBError none) :=
  ⟨rfl,
   c10_delete_frame.1 c10_state 2 c10_state1 2 rfl,
   c10_delete_frame.2.1 (some [⟨1, sl "Juan", sl "Cruz"⟩]) none
     none (some [⟨1, sl "A"⟩]) (some c10_rows) 2,
   c10_delete_frame.2.2 c10_state 9 (Or.inr ⟨c10_rows, rfl, by decide⟩)⟩
